import Mathlib

set_option maxHeartbeats 1000000

/-!
Verification of the `api_lava_ru` TypeScript client (`src/lava.ts`).

The client is a thin wrapper around an HTTP payment API: each public method
builds a request (method, path, body mapping), every call funnels through the
private `_request` routine, which deletes `undefined`-valued body entries,
sets the `Authorization` header to the raw API key, serializes the body with
`JSON.stringify`, issues the fetch, parses the response as JSON, raises
`LavaError` on an error-shaped response, and rewraps any thrown exception as
`LavaError` with the same message.

The embedding below translates that source directly:
- `JsValue` models the values `JSON.parse` can produce (JSON numbers are
  modelled as integers, the only kind exercised by this API);
- `jsTypeof`, `jsGetProp`, `jsToString` model the JavaScript `typeof`
  operator, property access (which throws a `TypeError` on `null`), and
  template-literal stringification, as used on lines 233-234 of the source;
- `renderJson` models `JSON.stringify` on parsed-JSON values;
- each public method becomes a function from its (typed) parameters to the
  `HttpRequest` it passes to `fetch`; the response side of `_request` becomes
  `processFetch`, a function of the fetch outcome (transport failure, JSON
  parse failure, or a parsed value), returning `Except LavaError JsValue`:
  `Except.error` models a thrown `LavaError`, `Except.ok` a normal return.
- `Date`-typed parameters (`periodStart`, `periodEnd`) are modelled by the
  ISO string `JSON.stringify` serializes them to.
-/

namespace LavaRu

/-- Values produced by parsing JSON (`response.json()` / `JSON.parse`).
JSON numbers are modelled as integers. -/
inductive JsValue where
  | null : JsValue
  | bool (b : Bool) : JsValue
  | num (n : Int) : JsValue
  | str (s : String) : JsValue
  | arr (elems : List JsValue) : JsValue
  | obj (fields : List (String × JsValue)) : JsValue

/-- The JavaScript `typeof` operator restricted to parsed-JSON values.
Note `typeof null`, like `typeof` of an array or object, is `"object"`. -/
def jsTypeof : JsValue → String
  | .null => "object"
  | .bool _ => "boolean"
  | .num _ => "number"
  | .str _ => "string"
  | .arr _ => "object"
  | .obj _ => "object"

/-- First-match lookup of a key in an object literal, as a JavaScript
property read on the object returns the stored value or `undefined`
(`none`). -/
def jsObjLookup (fields : List (String × JsValue)) (k : String) : Option JsValue :=
  (fields.find? (fun p => p.1 == k)).map (fun p => p.2)

/-- JavaScript property access `v[k]` on a parsed-JSON value: `undefined`
(`none`) on primitives and arrays (no own property `k`), the stored value or
`undefined` on objects, and a thrown `TypeError` on `null`. -/
def jsGetProp : JsValue → String → Except String (Option JsValue)
  | .null, k => .error ("Cannot read properties of null (reading " ++ k ++ ")")
  | .obj fields, k => .ok (jsObjLookup fields k)
  | _, _ => .ok none

mutual

/-- JavaScript string conversion of a value, as performed by a template
literal such as the backtick string on line 234 of the source. -/
def jsToString : JsValue → String
  | .null => "null"
  | .bool b => if b then "true" else "false"
  | .num n => toString n
  | .str s => s
  | .arr elems => jsArrJoin elems
  | .obj _ => "[object Object]"

/-- JavaScript `Array.prototype.toString`: elements joined with commas, a
`null` element contributing the empty string. -/
def jsArrJoin : List JsValue → String
  | [] => ""
  | x :: xs =>
    let head := match x with
      | .null => ""
      | v => jsToString v
    match xs with
    | [] => head
    | _ => head ++ "," ++ jsArrJoin xs

end

/-- Stringification of a property value: a missing property (`undefined`)
prints as the string `undefined` in a template literal. -/
def jsOptToString : Option JsValue → String
  | none => "undefined"
  | some v => jsToString v

/-- JSON string escaping for `JSON.stringify` (the characters the payloads
of this API can contain). -/
def escapeJsonChar (c : Char) : String :=
  if c = '"' then "\\\""
  else if c = '\\' then "\\\\"
  else if c = '\n' then "\\n"
  else if c = '\r' then "\\r"
  else if c = '\t' then "\\t"
  else String.singleton c

/-- JSON string literal rendering for `JSON.stringify`. -/
def renderJsonString (s : String) : String :=
  "\"" ++ String.join (s.data.map escapeJsonChar) ++ "\""

mutual

/-- The `JSON.stringify` serialization of a parsed-JSON value. -/
def renderJson : JsValue → String
  | .null => "null"
  | .bool b => if b then "true" else "false"
  | .num n => toString n
  | .str s => renderJsonString s
  | .arr elems => "[" ++ renderJsonArr elems ++ "]"
  | .obj fields => "\x7b" ++ renderJsonObj fields ++ "\x7d"

/-- Comma-separated rendering of array elements. -/
def renderJsonArr : List JsValue → String
  | [] => ""
  | [x] => renderJson x
  | x :: xs => renderJson x ++ "," ++ renderJsonArr xs

/-- Comma-separated rendering of object fields. -/
def renderJsonObj : List (String × JsValue) → String
  | [] => ""
  | [(k, v)] => renderJsonString k ++ ":" ++ renderJson v
  | (k, v) :: fs => renderJsonString k ++ ":" ++ renderJson v ++ "," ++ renderJsonObj fs

end

/-- The single error class of the client (`class LavaError extends Error`,
line 5 of the source): every failure carries only a message string. -/
structure LavaError where
  message : String
deriving DecidableEq

/-- The request the client hands to `fetch`: HTTP method, full URL, headers,
and the body mapping that remains after `_request` deletes `undefined`
entries (lines 223-225). The serialized body text is `requestBodyText`. -/
structure HttpRequest where
  method : String
  url : String
  headers : List (String × String)
  bodyFields : List (String × JsValue)

/-- The JSON text `JSON.stringify` produces from the body mapping; this is
the `body` value passed to `fetch` (line 229). -/
def requestBodyText (r : HttpRequest) : String :=
  renderJson (.obj r.bodyFields)

/-- Outcome of `response.json()`: either a JSON parse failure with its
message, or the parsed value. -/
inductive JsonResult where
  | parseError (msg : String) : JsonResult
  | value (v : JsValue) : JsonResult

/-- The response delivered by the HTTP transport: a status code (which the
source never reads) and the result of parsing the body as JSON. -/
structure HttpResponse where
  status : Nat
  json : JsonResult

/-- Outcome of the `fetch` call itself: a transport-level rejection with its
message, or a delivered response. -/
inductive FetchOutcome where
  | failure (msg : String) : FetchOutcome
  | response (resp : HttpResponse) : FetchOutcome

/-- The strict comparison of a property value against the string literal
`error` (the check on line 233): true exactly
when the property exists and is the string `"error"`. -/
def isErrorString : Option JsValue → Bool
  | some (.str s) => s == "error"
  | _ => false

/-- Lines 233-236 of the source: if typeof result is the string `object`
and the property `result.status` strictly equals the string `error`, a
`LavaError` is thrown whose message is the template literal rendering
`result.code`, a colon and a space, and `result.message`; otherwise the
result is returned — with JavaScript semantics of `typeof`, of property
access (which throws on `null`) and of short-circuit conjunction. -/
def processResult (result : JsValue) : Except String JsValue :=
  if jsTypeof result = "object" then
    match jsGetProp result "status" with
    | .error e => .error e
    | .ok st =>
      if isErrorString st then
        match jsGetProp result "code", jsGetProp result "message" with
        | .ok c, .ok m => .error (jsOptToString c ++ ": " ++ jsOptToString m)
        | .error e, _ => .error e
        | .ok _, .error e => .error e
      else .ok result
  else .ok result

/-- The `try`/`catch` half of `_request` (lines 226-240): a transport
failure, a JSON parse failure, or a `LavaError` thrown for an error-shaped
result is caught by the `catch` and rethrown as `new LavaError(error.message)`,
so every failure surfaces as a `LavaError` carrying the original message;
otherwise the parsed result is returned unchanged. -/
def processFetch : FetchOutcome → Except LavaError JsValue
  | .failure msg => .error ⟨msg⟩
  | .response resp =>
    match resp.json with
    | .parseError msg => .error ⟨msg⟩
    | .value v =>
      match processResult v with
      | .error e => .error ⟨e⟩
      | .ok v2 => .ok v2

/-- The fixed base URL assigned on line 68 of the source. -/
def pathPrefix : String := "https://api.lava.ru"

/-- The `undefined`-deletion loop of `_request` (lines 223-225): every body
entry whose value is `undefined` (`none`) is removed before serialization. -/
def filterData (data : List (String × Option JsValue)) : List (String × JsValue) :=
  data.filterMap (fun p => p.2.map (fun v => (p.1, v)))

/-- The request-building half of `_request` (lines 218-225 and 227-231):
full URL is `pathPrefix + path`, the only header is `Authorization` set to
the raw API key, and the body mapping is the data with `undefined` entries
deleted. -/
def buildRequest (apiKey method path : String)
    (data : List (String × Option JsValue)) : HttpRequest :=
  { method := method
    url := pathPrefix ++ path
    headers := [("Authorization", apiKey)]
    bodyFields := filterData data }

/-- The whole of `_request`: the request handed to `fetch`, and the result
of the call given the fetch outcome the environment produces for it. -/
def lavaRequest (apiKey method path : String) (data : List (String × Option JsValue))
    (fetchFn : HttpRequest → FetchOutcome) : HttpRequest × Except LavaError JsValue :=
  let req := buildRequest apiKey method path data
  (req, processFetch (fetchFn req))

/-- Parameters of `withdrawCreate` (interface `WithdrawCreateParams`);
optional parameters default to `undefined` (`none`). -/
structure WithdrawCreateParams where
  account : String
  amount : Int
  service : String
  walletTo : String
  orderId : Option String := none
  hookUrl : Option String := none
  subtract : Option Bool := none
  comment : Option String := none

/-- Parameters of `withdrawInfo` (interface `WithdrawInfoParams`). -/
structure WithdrawInfoParams where
  id : String

/-- Parameters of `transferCreate` (interface `TransferCreateParams`). -/
structure TransferCreateParams where
  accountFrom : String
  accountTo : String
  amount : Int
  subtract : Option Bool := none
  comment : Option String := none

/-- Parameters of `transferInfo` (interface `TransferInfoParams`). -/
structure TransferInfoParams where
  id : String

/-- Parameters of `transactionsList` (interface `TransactionsListParams`);
`Date` values are modelled by the ISO string they serialize to. -/
structure TransactionsListParams where
  transferType : Option String := none
  account : Option String := none
  periodStart : Option String := none
  periodEnd : Option String := none
  offset : Option Int := none
  limit : Option Int := none

/-- Parameters of `invoiceCreate` (interface `InvoiceCreateParams`). -/
structure InvoiceCreateParams where
  walletTo : String
  sum : Int
  orderId : Option String := none
  hookUrl : Option String := none
  successUrl : Option String := none
  failUrl : Option String := none
  expire : Option Int := none
  subtract : Option Bool := none
  customFields : Option (List (List String)) := none
  comment : Option String := none
  merchantId : Option String := none
  merchantName : Option String := none

/-- Parameters of `invoiceInfo` (interface `InvoiceInfoParams`): both
identifiers are optional and default to `undefined`. -/
structure InvoiceInfoParams where
  id : Option String := none
  orderId : Option String := none

/-- Parameters of `invoiceSetWebhook` (interface `InvoiceSetWebhookParams`). -/
structure InvoiceSetWebhookParams where
  url : String

/-- The request issued by `testPing` (lines 72-76): `GET /test/ping`, no
data, so `_request` uses its default empty body object. -/
def testPing (apiKey : String) : HttpRequest :=
  buildRequest apiKey "GET" "/test/ping" []

/-- The request issued by `walletList` (lines 78-82): `GET /wallet/list`. -/
def walletList (apiKey : String) : HttpRequest :=
  buildRequest apiKey "GET" "/wallet/list" []

/-- The body object literal of `withdrawCreate` (lines 97-106), before the
`undefined`-deletion loop. Note the source spells the key for the
`subtract` parameter as `substract`. -/
def withdrawCreateData (p : WithdrawCreateParams) : List (String × Option JsValue) :=
  [("account", some (.str p.account)),
   ("amount", some (.num p.amount)),
   ("service", some (.str p.service)),
   ("wallet_to", some (.str p.walletTo)),
   ("order_id", p.orderId.map .str),
   ("hook_url", p.hookUrl.map .str),
   ("substract", p.subtract.map .bool),
   ("comment", p.comment.map .str)]

/-- The request issued by `withdrawCreate` (lines 84-108):
`POST /withdraw/create`. -/
def withdrawCreate (apiKey : String) (p : WithdrawCreateParams) : HttpRequest :=
  buildRequest apiKey "POST" "/withdraw/create" (withdrawCreateData p)

/-- The request issued by `withdrawInfo` (lines 110-116):
`POST /withdraw/info` with the single body entry `id`. -/
def withdrawInfo (apiKey : String) (p : WithdrawInfoParams) : HttpRequest :=
  buildRequest apiKey "POST" "/withdraw/info" [("id", some (.str p.id))]

/-- The body object literal of `transferCreate` (lines 122-128). -/
def transferCreateData (p : TransferCreateParams) : List (String × Option JsValue) :=
  [("account_from", some (.str p.accountFrom)),
   ("account_to", some (.str p.accountTo)),
   ("amount", some (.num p.amount)),
   ("subtract", p.subtract.map .bool),
   ("comment", p.comment.map .str)]

/-- The request issued by `transferCreate` (lines 118-130):
`POST /transfer/create`. -/
def transferCreate (apiKey : String) (p : TransferCreateParams) : HttpRequest :=
  buildRequest apiKey "POST" "/transfer/create" (transferCreateData p)

/-- The request issued by `transferInfo` (lines 132-138):
`POST /transfer/info` with the single body entry `id`. -/
def transferInfo (apiKey : String) (p : TransferInfoParams) : HttpRequest :=
  buildRequest apiKey "POST" "/transfer/info" [("id", some (.str p.id))]

/-- The body object literal of `transactionsList` (lines 151-158). -/
def transactionsListData (p : TransactionsListParams) : List (String × Option JsValue) :=
  [("transfer_type", p.transferType.map .str),
   ("account", p.account.map .str),
   ("period_start", p.periodStart.map .str),
   ("period_end", p.periodEnd.map .str),
   ("offset", p.offset.map .num),
   ("limit", p.limit.map .num)]

/-- The request issued by `transactionsList` (lines 140-160):
`POST /transactions/list`. -/
def transactionsList (apiKey : String) (p : TransactionsListParams) : HttpRequest :=
  buildRequest apiKey "POST" "/transactions/list" (transactionsListData p)

/-- The body object literal of `invoiceCreate` (lines 179-192). -/
def invoiceCreateData (p : InvoiceCreateParams) : List (String × Option JsValue) :=
  [("wallet_to", some (.str p.walletTo)),
   ("sum", some (.num p.sum)),
   ("order_id", p.orderId.map .str),
   ("hook_url", p.hookUrl.map .str),
   ("success_url", p.successUrl.map .str),
   ("fail_url", p.failUrl.map .str),
   ("expire", p.expire.map .num),
   ("subtract", p.subtract.map .bool),
   ("custom_fields", p.customFields.map (fun rows => .arr (rows.map (fun row => .arr (row.map .str))))),
   ("comment", p.comment.map .str),
   ("merchant_id", p.merchantId.map .str),
   ("merchant_name", p.merchantName.map .str)]

/-- The request issued by `invoiceCreate` (lines 162-194):
`POST /invoice/create`. -/
def invoiceCreate (apiKey : String) (p : InvoiceCreateParams) : HttpRequest :=
  buildRequest apiKey "POST" "/invoice/create" (invoiceCreateData p)

/-- The body object literal of `invoiceInfo` (line 200): the entries `id` and `order_id`. -/
def invoiceInfoData (p : InvoiceInfoParams) : List (String × Option JsValue) :=
  [("id", p.id.map .str),
   ("order_id", p.orderId.map .str)]

/-- The request issued by `invoiceInfo` (lines 196-202):
`POST /invoice/info`. -/
def invoiceInfo (apiKey : String) (p : InvoiceInfoParams) : HttpRequest :=
  buildRequest apiKey "POST" "/invoice/info" (invoiceInfoData p)

/-- The full call made by `invoiceInfo`: the request it issues and the
result of processing the fetch outcome, exactly as `_request` does. -/
def invoiceInfoCall (apiKey : String) (p : InvoiceInfoParams)
    (fetchFn : HttpRequest → FetchOutcome) : HttpRequest × Except LavaError JsValue :=
  lavaRequest apiKey "POST" "/invoice/info" (invoiceInfoData p) fetchFn

/-- The request issued by `invoiceSetWebhook` (lines 204-210):
`POST /invoice/set-webhook` with the single body entry `url`. -/
def invoiceSetWebhook (apiKey : String) (p : InvoiceSetWebhookParams) : HttpRequest :=
  buildRequest apiKey "POST" "/invoice/set-webhook" [("url", some (.str p.url))]

/-- The request issued by `invoiceGenerateSecretKey` (lines 212-216):
`GET /invoice/generate-secret-key`. -/
def invoiceGenerateSecretKey (apiKey : String) : HttpRequest :=
  buildRequest apiKey "GET" "/invoice/generate-secret-key" []

/-- The list of keys present in the transmitted body mapping. -/
def bodyKeys (r : HttpRequest) : List String := r.bodyFields.map Prod.fst

/-- The key contributed to the transmitted body by one parameter: present
exactly when the parameter is provided. -/
def optKey {α : Type} (k : String) (o : Option α) : List String :=
  if o.isSome then [k] else []

/-- The entry contributed to the transmitted body by one parameter: the
key-value pair when the parameter is provided, nothing when it is absent. -/
def optField (k : String) : Option JsValue → List (String × JsValue)
  | some v => [(k, v)]
  | none => []

theorem filterData_cons (k : String) (o : Option JsValue)
    (rest : List (String × Option JsValue)) :
    filterData ((k, o) :: rest) = optField k o ++ filterData rest := by
  cases o <;> rfl

theorem filterData_nil : filterData [] = [] := rfl

theorem optField_map_fst (k : String) (o : Option JsValue) :
    (optField k o).map Prod.fst = optKey k o := by
  cases o <;> rfl

theorem optKey_map {α β : Type} (k : String) (f : α → β) (o : Option α) :
    optKey k (o.map f) = optKey k o := by
  cases o <;> rfl

theorem optKey_some {α : Type} (k : String) (a : α) : optKey k (some a) = [k] := rfl

theorem optField_some (k : String) (v : JsValue) : optField k (some v) = [(k, v)] := rfl

/-- C1: for every operation, the set of keys present in the transmitted
body is exactly the set of body keys the source assigns to the arguments
the caller actually provided: the key of every required argument is always
present, the key of every optional argument is present exactly when that
argument is provided, and no other key ever appears. In particular an
optional parameter left unset never appears as a key in the body. -/
theorem claim1_body_keys_match_provided (apiKey : String)
    (pw : WithdrawCreateParams) (pwi : WithdrawInfoParams)
    (ptc : TransferCreateParams) (pti : TransferInfoParams)
    (ptl : TransactionsListParams) (pic : InvoiceCreateParams)
    (pii : InvoiceInfoParams) (psw : InvoiceSetWebhookParams) :
    bodyKeys (testPing apiKey) = [] ∧
    bodyKeys (walletList apiKey) = [] ∧
    bodyKeys (withdrawCreate apiKey pw) =
      ["account", "amount", "service", "wallet_to"] ++ optKey "order_id" pw.orderId ++
      optKey "hook_url" pw.hookUrl ++ optKey "substract" pw.subtract ++
      optKey "comment" pw.comment ∧
    bodyKeys (withdrawInfo apiKey pwi) = ["id"] ∧
    bodyKeys (transferCreate apiKey ptc) =
      ["account_from", "account_to", "amount"] ++ optKey "subtract" ptc.subtract ++
      optKey "comment" ptc.comment ∧
    bodyKeys (transferInfo apiKey pti) = ["id"] ∧
    bodyKeys (transactionsList apiKey ptl) =
      optKey "transfer_type" ptl.transferType ++ optKey "account" ptl.account ++
      optKey "period_start" ptl.periodStart ++ optKey "period_end" ptl.periodEnd ++
      optKey "offset" ptl.offset ++ optKey "limit" ptl.limit ∧
    bodyKeys (invoiceCreate apiKey pic) =
      ["wallet_to", "sum"] ++ optKey "order_id" pic.orderId ++
      optKey "hook_url" pic.hookUrl ++ optKey "success_url" pic.successUrl ++
      optKey "fail_url" pic.failUrl ++ optKey "expire" pic.expire ++
      optKey "subtract" pic.subtract ++ optKey "custom_fields" pic.customFields ++
      optKey "comment" pic.comment ++ optKey "merchant_id" pic.merchantId ++
      optKey "merchant_name" pic.merchantName ∧
    bodyKeys (invoiceInfo apiKey pii) =
      optKey "id" pii.id ++ optKey "order_id" pii.orderId ∧
    bodyKeys (invoiceSetWebhook apiKey psw) = ["url"] ∧
    bodyKeys (invoiceGenerateSecretKey apiKey) = [] := by
  refine ⟨rfl, rfl, ?_, rfl, ?_, rfl, ?_, ?_, ?_, rfl, rfl⟩ <;>
    simp only [bodyKeys, withdrawCreate, transferCreate, transactionsList, invoiceCreate,
      invoiceInfo, buildRequest, withdrawCreateData, transferCreateData,
      transactionsListData, invoiceCreateData, invoiceInfoData, filterData_cons,
      filterData_nil, List.map_append, optField_map_fst, optKey_map, optKey_some,
      List.append_nil, List.append_assoc, List.singleton_append, List.cons_append,
      List.nil_append, List.map_nil]

/-- C2: whenever the parsed JSON response is an object whose `status` field
is the string `error`, the call fails with a `LavaError` whose message is
exactly the stringified `code` field, a colon and a space, and the
stringified `message` field, for every HTTP status and every operation
(all operations process their response through `processFetch`). -/
theorem claim2_error_response_message (st : Nat) (fs : List (String × JsValue))
    (h : jsObjLookup fs "status" = some (.str "error")) :
    processFetch (.response ⟨st, .value (.obj fs)⟩) =
      .error ⟨jsOptToString (jsObjLookup fs "code") ++ ": " ++
        jsOptToString (jsObjLookup fs "message")⟩ := by
  simp [processFetch, processResult, jsGetProp, jsTypeof, h, isErrorString]

/-- Witness for C2: the simulated response with status `error`, code `42`
and message `bad account` fails with message exactly `42: bad account`. -/
theorem claim2_witness :
    processFetch (.response ⟨200, .value (.obj
      [("status", .str "error"), ("code", .num 42), ("message", .str "bad account")])⟩) =
      .error ⟨"42: bad account"⟩ :=
  claim2_error_response_message 200
    [("status", .str "error"), ("code", .num 42), ("message", .str "bad account")] rfl

/-- Counterexample to C3 as stated: the claim includes `null` among the
parsed values returned unchanged, but on a parsed `null` the check
`typeof result === "object"` succeeds (in JavaScript `typeof null` is
`"object"`), the property read `result.status` throws a `TypeError`, and the
catch rewraps it as a `LavaError`; the call fails instead of returning
`null`. -/
theorem claim3_counterexample :
    processFetch (.response ⟨200, .value .null⟩) =
      .error ⟨"Cannot read properties of null (reading status)"⟩ ∧
    processFetch (.response ⟨200, .value .null⟩) ≠ .ok .null :=
  ⟨rfl, fun h => Except.noConfusion h⟩

/-- C3 amended: for every parsed JSON response other than `null` that is
not an object whose `status` field is the string `error` — arrays,
numbers, strings, booleans, and objects lacking such a `status` — the
operation succeeds and returns the parsed value unchanged; a parsed `null`
instead fails with the rewrapped `TypeError` of the property read. -/
theorem claim3_non_error_passthrough (st : Nat) (v : JsValue)
    (hnull : v ≠ JsValue.null)
    (herr : ∀ fs, v = JsValue.obj fs → isErrorString (jsObjLookup fs "status") = false) :
    processFetch (.response ⟨st, .value v⟩) = .ok v := by
  cases v with
  | null => exact absurd rfl hnull
  | bool b => rfl
  | num n => rfl
  | str s => rfl
  | arr xs => rfl
  | obj fs => simp [processFetch, processResult, jsGetProp, jsTypeof, herr fs rfl]

/-- Witness for C3 amended: an object whose `status` is `ok` is returned
unchanged, as is a plain array. -/
theorem claim3_witness :
    processFetch (.response ⟨200, .value (.obj [("status", .str "ok")])⟩) =
      .ok (.obj [("status", .str "ok")]) ∧
    processFetch (.response ⟨200, .value (.arr [.num 7])⟩) = .ok (.arr [.num 7]) :=
  ⟨claim3_non_error_passthrough 200 _ (fun h => JsValue.noConfusion h)
      (by intro fs hfs; cases hfs; rfl),
    claim3_non_error_passthrough 200 _ (fun h => JsValue.noConfusion h)
      (by intro fs hfs; cases hfs)⟩

/-- Counterexample to C4 as stated: the claim says calling `withdrawCreate`
with `subtract` provided produces the body key `subtract`, but the source
(line 104) spells that key `substract`; the transmitted body carries
`substract` and no key `subtract`. -/
theorem claim4_counterexample :
    "subtract" ∉ bodyKeys (withdrawCreate "k"
      ⟨"acc", 1, "svc", "W1", none, none, some true, none⟩) ∧
    "substract" ∈ bodyKeys (withdrawCreate "k"
      ⟨"acc", 1, "svc", "W1", none, none, some true, none⟩) := by
  decide

/-- C4 amended: every provided parameter of every POST operation is
transmitted under exactly the body key the source assigns, with the
provided value unchanged: all the listed camelCase-to-snake_case
translations hold (`walletTo` to `wallet_to`, `accountFrom` to
`account_from`, `accountTo` to `account_to`, `orderId` to `order_id`,
`hookUrl` to `hook_url`, `periodStart` to `period_start`, `periodEnd` to
`period_end`, `transferType` to `transfer_type`, `successUrl` to
`success_url`, `failUrl` to `fail_url`, `customFields` to `custom_fields`,
`merchantId` to `merchant_id`, `merchantName` to `merchant_name`), and
`transferCreate` and `invoiceCreate` transmit `subtract` as `subtract`,
except that `withdrawCreate` transmits its `subtract` parameter under the
key `substract`. In particular `withdrawCreate` with `walletTo` set to
`W1` produces the body entry `wallet_to` with value `W1`. -/
theorem claim4_post_body_field_mapping (apiKey : String)
    (pw : WithdrawCreateParams) (pwi : WithdrawInfoParams)
    (ptc : TransferCreateParams) (pti : TransferInfoParams)
    (ptl : TransactionsListParams) (pic : InvoiceCreateParams)
    (pii : InvoiceInfoParams) (psw : InvoiceSetWebhookParams) :
    (withdrawCreate apiKey pw).bodyFields =
      [("account", .str pw.account), ("amount", .num pw.amount),
       ("service", .str pw.service), ("wallet_to", .str pw.walletTo)] ++
      optField "order_id" (pw.orderId.map .str) ++
      optField "hook_url" (pw.hookUrl.map .str) ++
      optField "substract" (pw.subtract.map .bool) ++
      optField "comment" (pw.comment.map .str) ∧
    (withdrawInfo apiKey pwi).bodyFields = [("id", .str pwi.id)] ∧
    (transferCreate apiKey ptc).bodyFields =
      [("account_from", .str ptc.accountFrom), ("account_to", .str ptc.accountTo),
       ("amount", .num ptc.amount)] ++
      optField "subtract" (ptc.subtract.map .bool) ++
      optField "comment" (ptc.comment.map .str) ∧
    (transferInfo apiKey pti).bodyFields = [("id", .str pti.id)] ∧
    (transactionsList apiKey ptl).bodyFields =
      optField "transfer_type" (ptl.transferType.map .str) ++
      optField "account" (ptl.account.map .str) ++
      optField "period_start" (ptl.periodStart.map .str) ++
      optField "period_end" (ptl.periodEnd.map .str) ++
      optField "offset" (ptl.offset.map .num) ++
      optField "limit" (ptl.limit.map .num) ∧
    (invoiceCreate apiKey pic).bodyFields =
      [("wallet_to", .str pic.walletTo), ("sum", .num pic.sum)] ++
      optField "order_id" (pic.orderId.map .str) ++
      optField "hook_url" (pic.hookUrl.map .str) ++
      optField "success_url" (pic.successUrl.map .str) ++
      optField "fail_url" (pic.failUrl.map .str) ++
      optField "expire" (pic.expire.map .num) ++
      optField "subtract" (pic.subtract.map .bool) ++
      optField "custom_fields" (pic.customFields.map
        (fun rows => .arr (rows.map (fun row => .arr (row.map .str))))) ++
      optField "comment" (pic.comment.map .str) ++
      optField "merchant_id" (pic.merchantId.map .str) ++
      optField "merchant_name" (pic.merchantName.map .str) ∧
    (invoiceInfo apiKey pii).bodyFields =
      optField "id" (pii.id.map .str) ++ optField "order_id" (pii.orderId.map .str) ∧
    (invoiceSetWebhook apiKey psw).bodyFields = [("url", .str psw.url)] := by
  refine ⟨?_, rfl, ?_, rfl, ?_, ?_, ?_, rfl⟩ <;>
    simp only [withdrawCreate, transferCreate, transactionsList, invoiceCreate,
      invoiceInfo, buildRequest, withdrawCreateData, transferCreateData,
      transactionsListData, invoiceCreateData, invoiceInfoData, filterData_cons,
      filterData_nil, optField_some, List.append_nil, List.append_assoc,
      List.singleton_append, List.cons_append, List.nil_append]

/-- C5: every failure surfaces as the one error kind `LavaError` with the
underlying message preserved — a transport failure with message `m` fails
with `LavaError m`, a JSON parse failure with message `m` fails with
`LavaError m` — and for every fetch outcome the call has exactly two
possible results: it fully succeeds with the parsed value or fully fails
with a `LavaError` (remote business errors fail by `claim2`-style
messages through the same `LavaError` kind). -/
theorem claim5_single_error_kind (m : String) (st : Nat) (o : FetchOutcome) :
    processFetch (.failure m) = .error ⟨m⟩ ∧
    processFetch (.response ⟨st, .parseError m⟩) = .error ⟨m⟩ ∧
    ((∃ v, processFetch o = .ok v) ∨ (∃ e, processFetch o = .error e)) := by
  refine ⟨rfl, rfl, ?_⟩
  cases h : processFetch o with
  | error e => exact Or.inr ⟨e, rfl⟩
  | ok v => exact Or.inl ⟨v, rfl⟩

/-- C6: every request carries exactly one header, `Authorization`, whose
value is the raw API key supplied at construction, unaltered and with no
scheme prefix — shown for the shared executor and for each of the eleven
operations. -/
theorem claim6_authorization_header (apiKey method path : String)
    (data : List (String × Option JsValue))
    (pw : WithdrawCreateParams) (pwi : WithdrawInfoParams)
    (ptc : TransferCreateParams) (pti : TransferInfoParams)
    (ptl : TransactionsListParams) (pic : InvoiceCreateParams)
    (pii : InvoiceInfoParams) (psw : InvoiceSetWebhookParams) :
    (buildRequest apiKey method path data).headers = [("Authorization", apiKey)] ∧
    (testPing apiKey).headers = [("Authorization", apiKey)] ∧
    (walletList apiKey).headers = [("Authorization", apiKey)] ∧
    (withdrawCreate apiKey pw).headers = [("Authorization", apiKey)] ∧
    (withdrawInfo apiKey pwi).headers = [("Authorization", apiKey)] ∧
    (transferCreate apiKey ptc).headers = [("Authorization", apiKey)] ∧
    (transferInfo apiKey pti).headers = [("Authorization", apiKey)] ∧
    (transactionsList apiKey ptl).headers = [("Authorization", apiKey)] ∧
    (invoiceCreate apiKey pic).headers = [("Authorization", apiKey)] ∧
    (invoiceInfo apiKey pii).headers = [("Authorization", apiKey)] ∧
    (invoiceSetWebhook apiKey psw).headers = [("Authorization", apiKey)] ∧
    (invoiceGenerateSecretKey apiKey).headers = [("Authorization", apiKey)] :=
  ⟨rfl, rfl, rfl, rfl, rfl, rfl, rfl, rfl, rfl, rfl, rfl, rfl⟩

/-- C7: the three GET operations pass the empty body mapping to the HTTP
call — no key is ever present — and the serialized body text they hand to
`fetch` is the two-character JSON serialization of the empty object. -/
theorem claim7_get_ops_empty_body (apiKey : String) :
    (testPing apiKey).method = "GET" ∧
    (testPing apiKey).bodyFields = [] ∧
    requestBodyText (testPing apiKey) = "\x7b\x7d" ∧
    (walletList apiKey).method = "GET" ∧
    (walletList apiKey).bodyFields = [] ∧
    requestBodyText (walletList apiKey) = "\x7b\x7d" ∧
    (invoiceGenerateSecretKey apiKey).method = "GET" ∧
    (invoiceGenerateSecretKey apiKey).bodyFields = [] ∧
    requestBodyText (invoiceGenerateSecretKey apiKey) = "\x7b\x7d" :=
  ⟨rfl, rfl, rfl, rfl, rfl, rfl, rfl, rfl, rfl⟩

/-- C8: calling `invoiceInfo` with both optional identifiers absent raises
no local error — the call is built and processed exactly like any other —
and issues a POST to `/invoice/info` whose body mapping contains neither
`id` nor `order_id` (an empty body mapping); the result is determined
solely by the fetch outcome for that request. -/
theorem claim8_invoiceInfo_no_identifiers (apiKey : String)
    (fetchFn : HttpRequest → FetchOutcome) :
    invoiceInfo apiKey ⟨none, none⟩ =
      ⟨"POST", "https://api.lava.ru/invoice/info", [("Authorization", apiKey)], []⟩ ∧
    (invoiceInfoCall apiKey ⟨none, none⟩ fetchFn).1 = invoiceInfo apiKey ⟨none, none⟩ ∧
    (invoiceInfoCall apiKey ⟨none, none⟩ fetchFn).2 =
      processFetch (fetchFn (invoiceInfo apiKey ⟨none, none⟩)) :=
  ⟨rfl, rfl, rfl⟩

/-- C9: remote-error detection only requires the parsed response to be an
object whose `status` is the string `error`; `code` and `message` need not
exist, and a response that is exactly such an object fails with message
`undefined: undefined`, the template-literal stringification of the two
missing properties. -/
theorem claim9_status_only_detection :
    processFetch (.response ⟨200, .value (.obj [("status", .str "error")])⟩) =
      .error ⟨"undefined: undefined"⟩ :=
  rfl

/-- C10: the HTTP status code of the response is never inspected: for every
parsed body the result of the call is the same whatever the status code,
and in particular a 500 response whose body is non-error-shaped JSON is
returned as a success. -/
theorem claim10_http_status_ignored (s₁ s₂ : Nat) (j : JsonResult) :
    processFetch (.response ⟨s₁, j⟩) = processFetch (.response ⟨s₂, j⟩) ∧
    processFetch (.response ⟨500, .value (.obj [("ok", .bool true)])⟩) =
      .ok (.obj [("ok", .bool true)]) :=
  ⟨rfl, rfl⟩

end LavaRu
